import Mathlib

/-!
Verification of the MediConnect AI backend: a shallow embedding of the
multi-agent handoff router, the chat transport endpoints, and the
database-backed tools (booking, user verification, ticket/calendar
downloads, date normalization), with theorems about the behaviour of
each embedded operation.

Sources embedded:
- backend/agents/definitions.py (agent names and handoff tool sets)
- backend/graph/swarm.py (swarm construction, default active agent)
- backend/main.py (chat endpoint, event translation, /graph endpoint,
  /api/tickets and /api/calendar endpoints)
- backend/models/state.py (message-accumulating state)
- backend/tools/medical_tools.py (book_appointment, check_availability,
  verify_user, register_user, date year fix-up, email validation)
-/

namespace MediConnect

/-- A conversation message: role is one of user / assistant / tool
(langchain BaseMessage, as accumulated in the graph state). -/
structure Msg where
  role : String
  content : String
  deriving DecidableEq

/-- The four agent names, in the order the agents list is built in
backend/agents/definitions.py line 233. -/
def swarmAgentNames : List String := ["Triage", "Appointment", "Clinical", "Billing"]

/-- Handoff tool targets bound to each agent, from the tool lists in
backend/agents/definitions.py: triage_tools (lines 30-37) carries
to_appointment, to_clinical, to_billing; appointment_tools (75-85)
carries to_triage, to_clinical, to_billing; clinical_tools (148-155)
carries to_triage, to_appointment, to_billing; billing_tools (201-206)
carries to_triage, to_clinical, to_appointment. -/
def handoffTargets (agent : String) : List String :=
  if agent = "Triage" then ["Appointment", "Clinical", "Billing"]
  else if agent = "Appointment" then ["Triage", "Clinical", "Billing"]
  else if agent = "Clinical" then ["Triage", "Appointment", "Billing"]
  else if agent = "Billing" then ["Triage", "Clinical", "Appointment"]
  else []

/-- backend/graph/swarm.py line 9: create_swarm(agents, default_active_agent="Triage"). -/
def defaultActiveAgent : String := "Triage"

/-- One handoff transition of the swarm router: the currently active agent
invokes the handoff tool for one of its permitted targets, which sets the
session's active agent to that target (langgraph_swarm handoff tools
to_appointment / to_clinical / to_billing / to_triage bound in
backend/agents/definitions.py lines 24-27). The active agent is modelled as
an Option so that the absence of an active agent (null) is representable
and provably never reached. -/
inductive HandoffStep : Option String → Option String → Prop where
  | handoff (a b : String) : b ∈ handoffTargets a → HandoffStep (some a) (some b)

/-- Active-agent values reachable by any session: the initial value set by
create_swarm's default_active_agent, closed under handoff transitions
observed during turns. -/
inductive ReachableActive : Option String → Prop where
  | init : ReachableActive (some defaultActiveAgent)
  | step {s t : Option String} : ReachableActive s → HandoffStep s t → ReachableActive t

/-- The message accumulator on the graph state (state.py line 9,
Annotated[List[BaseMessage], add_messages]): messages produced by a turn
are appended, in order, to the stored history; fresh messages are never
dropped, reordered or merged. -/
def add_messages (history new : List Msg) : List Msg := history ++ new

/-- One completed turn's effect on the stored history (per-turn algorithm:
the incoming user message is appended, then the replies produced during
the turn, in conversation order). -/
def runTurn (history : List Msg) (userMsg : Msg) (replies : List Msg) : List Msg :=
  add_messages history (userMsg :: replies)

/-- Per-thread session state held by the InMemorySaver checkpointer
(backend/graph/swarm.py line 6): the accumulated messages and the active
agent of the conversation. -/
structure SessionState where
  messages : List Msg
  activeAgent : String
  deriving DecidableEq

/-- State of a thread that has no checkpoint yet: empty history, active
agent initialised to the swarm's default. -/
def initialSession : SessionState := { messages := [], activeAgent := defaultActiveAgent }

/-- The checkpointer's keyed store: thread_id to saved session state
(none for a thread never seen). -/
def Checkpointer : Type := String → Option SessionState

/-- Reading a thread's state: an unknown thread starts from the initial
session state rather than erroring. -/
def lookupSession (cp : Checkpointer) (tid : String) : SessionState :=
  (cp tid).getD initialSession

/-- Saving a thread's state after a turn. -/
def updateSession (cp : Checkpointer) (tid : String) (st : SessionState) : Checkpointer :=
  fun t => if t = tid then some st else cp t

/-- backend/main.py line 227: thread_id = request.thread_id or str(uuid.uuid4()).
Python truthiness: a missing field and an empty string both fall back to the
freshly generated uuid. -/
def resolveThreadId (reqThreadId : Option String) (freshId : String) : String :=
  match reqThreadId with
  | some s => if s = "" then freshId else s
  | none => freshId

/-- One POST /api/chat turn against the checkpointer (backend/main.py
lines 225-254): resolve the thread id, read that thread's state, run the
turn on it (append user message and replies, set the new active agent),
and save the result under the same thread id. The turn's replies and
final active agent are parameters because the model calls that produce
them are an external capability. -/
def chatTurn (cp : Checkpointer) (reqThreadId : Option String) (freshId : String)
    (userMsg : Msg) (replies : List Msg) (newActive : String) : Checkpointer × String :=
  let tid := resolveThreadId reqThreadId freshId
  let st := lookupSession cp tid
  let st2 : SessionState := { messages := runTurn st.messages userMsg replies,
                              activeAgent := newActive }
  (updateSession cp tid st2, tid)

/-- Internal lifecycle events consumed from graph.astream_events
(backend/main.py lines 250-275): chain start/end carry the node name,
tool start carries name and input, model stream carries a token chunk. -/
inductive RawEvent where
  | chainStart (name : String)
  | chainEnd (name : String)
  | toolStart (name : String) (input : String)
  | chatModelStream (content : String)
  | otherEvent (kind : String)
  deriving DecidableEq

/-- Client-visible newline-delimited JSON events of POST /api/chat:
type thread_id, agent_event, token, or error. -/
inductive OutEvent where
  | threadIdEvent (threadId : String)
  | agentEvent (agent : String)
  | token (content : String)
  | errorEvent (content : String)
  deriving DecidableEq

/-- The node names the chat endpoint surfaces as agent_event
(backend/main.py line 259, in source order). -/
def monitoredAgents : List String := ["Triage", "Clinical", "Appointment", "Billing"]

/-- Translation of one internal event to at most one client event
(backend/main.py lines 255-275): on_chain_start of a monitored agent node
becomes an agent_event; a non-empty model stream chunk becomes a token
(Python truthiness drops empty chunks); tool starts and everything else
produce no client event. -/
def translateEvent : RawEvent → Option OutEvent
  | RawEvent.chainStart name =>
      if name ∈ monitoredAgents then some (OutEvent.agentEvent name) else none
  | RawEvent.chatModelStream content =>
      if content = "" then none else some (OutEvent.token content)
  | _ => none

/-- The streamed output of one POST /api/chat turn (backend/main.py
event_generator, lines 245-288): the thread_id event is yielded first,
then each internal event's translation as it arrives, and, if the graph
run raises, an error event carrying the exception text (the events list
holds the internal events yielded before the exception, if any). -/
def event_generator (threadId : String) (events : List RawEvent) (exn : Option String) :
    List OutEvent :=
  OutEvent.threadIdEvent threadId ::
    (events.filterMap translateEvent ++
      match exn with
      | some e => [OutEvent.errorEvent e]
      | none => [])

/-- A node of the GET /graph response (backend/main.py lines 193-198). -/
structure GraphNode where
  id : String
  label : String
  role : String
  color : String
  deriving DecidableEq

/-- An edge of the GET /graph response (backend/main.py lines 201-212). -/
structure GraphEdge where
  source : String
  target : String
  label : String
  deriving DecidableEq

/-- The hardcoded node list of GET /graph (backend/main.py lines 193-198). -/
def graphNodes : List GraphNode :=
  [{ id := "Triage", label := "Triage Agent", role := "Routes patients to specialists",
     color := "#3B82F6" },
   { id := "Clinical", label := "Clinical Agent", role := "Medical advice & symptoms",
     color := "#10B981" },
   { id := "Appointment", label := "Appointment Agent", role := "Scheduling & booking",
     color := "#8B5CF6" },
   { id := "Billing", label := "Billing Agent", role := "Invoices & insurance",
     color := "#F59E0B" }]

/-- The hardcoded edge list of GET /graph (backend/main.py lines 201-212). -/
def graphEdges : List GraphEdge :=
  [{ source := "Triage", target := "Clinical", label := "Medical symptoms" },
   { source := "Triage", target := "Appointment", label := "Booking/scheduling" },
   { source := "Triage", target := "Billing", label := "Billing questions" },
   { source := "Clinical", target := "Appointment", label := "Book appointment" },
   { source := "Appointment", target := "Clinical", label := "Medical questions" },
   { source := "Billing", target := "Triage", label := "Other needs" },
   { source := "Clinical", target := "Billing", label := "Billing inquiry" },
   { source := "Billing", target := "Clinical", label := "Medical check" },
   { source := "Appointment", target := "Billing", label := "Payment due" },
   { source := "Billing", target := "Appointment", label := "Schedule follow-up" }]

/-- GET /graph returns the hardcoded nodes, edges and default agent
(backend/main.py lines 188-214). -/
def get_graph : List GraphNode × List GraphEdge × String := (graphNodes, graphEdges, "Triage")

/-- A row of the doctors table (backend/database.py lines 39-53;
latitude/longitude omitted: no claim touches them). -/
structure Doctor where
  id : Nat
  name : String
  specialty : String
  clinic_name : String
  address : String
  city : String
  deriving DecidableEq

/-- A row of the patients table (backend/database.py lines 55-65). -/
structure Patient where
  id : Nat
  name : String
  email : String
  age : Nat
  gender : String
  deriving DecidableEq

/-- A row of the appointments table (backend/database.py lines 78-90). -/
structure Appointment where
  id : Nat
  doctor_id : Nat
  patient_id : Nat
  date : String
  time : String
  status : String
  deriving DecidableEq

/-- The backing relational store, as the tool layer sees it. -/
structure Database where
  doctors : List Doctor
  patients : List Patient
  appointments : List Appointment
  deriving DecidableEq

/-- The details dict assembled by the ticket and calendar endpoints
(backend/main.py lines 62-68 and 96-102): name lookups fall back to
"Unknown" when the doctor or patient row is missing. -/
structure TicketDetails where
  appointment_id : Nat
  patient_name : String
  doctor_name : String
  date : String
  time : String
  deriving DecidableEq

/-- An HTTP response of the download endpoints: a streamed file with a
media type, or an HTTPException with a status and detail. -/
inductive HttpResponse where
  | file (mediaType : String) (body : List Nat)
  | httpError (status : Nat) (detail : String)
  deriving DecidableEq

/-- Assemble the details dict for an appointment (backend/main.py
lines 59-68 / 93-102). -/
def ticketDetails (db : Database) (appt : Appointment) : TicketDetails :=
  { appointment_id := appt.id
    patient_name :=
      match db.patients.find? (fun p => p.id == appt.patient_id) with
      | some p => p.name
      | none => "Unknown"
    doctor_name :=
      match db.doctors.find? (fun d => d.id == appt.doctor_id) with
      | some d => d.name
      | none => "Unknown"
    date := appt.date
    time := appt.time }

/-- GET /api/tickets/{appointment_id} (backend/main.py lines 82-114):
404 when no appointment row has the id; otherwise the PDF generator
(an external capability, backend/tools/ticket_tool.py, which returns
None on failure) is invoked and its bytes are streamed as
application/pdf, with a 500 when generation fails. -/
def get_ticket (db : Database) (generate_ticket_bytes : TicketDetails → Option (List Nat))
    (appointment_id : Nat) : HttpResponse :=
  match db.appointments.find? (fun a => a.id == appointment_id) with
  | none => HttpResponse.httpError 404 "Appointment not found"
  | some appt =>
    match generate_ticket_bytes (ticketDetails db appt) with
    | none => HttpResponse.httpError 500 "Failed to generate ticket"
    | some bytes => HttpResponse.file "application/pdf" bytes

/-- GET /api/calendar/{appointment_id} (backend/main.py lines 48-80):
same shape as the ticket endpoint with the ICS generator
(backend/tools/calendar_tool.py) and media type text/calendar. -/
def get_calendar (db : Database) (generate_ics_bytes : TicketDetails → Option (List Nat))
    (appointment_id : Nat) : HttpResponse :=
  match db.appointments.find? (fun a => a.id == appointment_id) with
  | none => HttpResponse.httpError 404 "Appointment not found"
  | some appt =>
    match generate_ics_bytes (ticketDetails db appt) with
    | none => HttpResponse.httpError 500 "Failed to generate calendar file"
    | some bytes => HttpResponse.file "text/calendar" bytes

/-- The slot-taken check of book_appointment (backend/tools/medical_tools.py
lines 137-142): a confirmed appointment with the same doctor, date and
time already exists. -/
def slotTaken (appts : List Appointment) (docId : Nat) (date time : String) : Bool :=
  appts.any fun a =>
    a.doctor_id == docId && a.date == date && a.time == time && a.status == "confirmed"

/-- Arguments of one book_appointment call (doctor already resolved to
its row id). -/
structure BookRequest where
  doctor_id : Nat
  date : String
  time : String
  patient_id : Nat
  deriving DecidableEq

/-- One in-flight book_appointment call: the id its insert would get, the
result of its slot check once performed (seen), and its final outcome
(some true = confirmed reply, some false = "slot already booked" error
reply). -/
structure BookSession where
  req : BookRequest
  apptId : Nat
  seen : Option Bool
  outcome : Option Bool
  deriving DecidableEq

/-- The SELECT phase of book_appointment (medical_tools.py lines 137-142):
read whether the slot is taken in the current database state. -/
def bookCheck (db : List Appointment) (s : BookSession) : BookSession :=
  { s with seen := some (slotTaken db s.req.doctor_id s.req.date s.req.time) }

/-- The decision/INSERT phase of book_appointment (medical_tools.py
lines 144-151): if the earlier SELECT saw the slot taken, return the
"already booked" error; otherwise insert a confirmed appointment and
commit. -/
def bookFinish (db : List Appointment) (s : BookSession) : List Appointment × BookSession :=
  match s.seen with
  | some true => (db, { s with outcome := some false })
  | some false =>
      (db ++ [{ id := s.apptId, doctor_id := s.req.doctor_id, patient_id := s.req.patient_id,
                date := s.req.date, time := s.req.time, status := "confirmed" }],
       { s with outcome := some true })
  | none => (db, s)

/-- Run the next pending phase of one call: first its SELECT, then its
decision/INSERT; a finished call leaves the database unchanged. -/
def clientStep (db : List Appointment) (s : BookSession) : List Appointment × BookSession :=
  match s.seen, s.outcome with
  | none, _ => (db, bookCheck db s)
  | some _, none => bookFinish db s
  | some _, some _ => (db, s)

/-- Interleave two book_appointment calls over the shared appointments
table: each schedule entry says which call runs its next phase (true =
first call). The database uses no lock and no unique constraint on
(doctor_id, date, time) — backend/database.py lines 78-90 — so phases of
the two calls may interleave freely. -/
def runSchedule : List Bool → List Appointment → BookSession → BookSession →
    List Appointment × BookSession × BookSession
  | [], db, a, b => (db, a, b)
  | t :: ts, db, a, b =>
    if t then
      let p := clientStep db a
      runSchedule ts p.fst p.snd b
    else
      let p := clientStep db b
      runSchedule ts p.fst a p.snd

/-- Number of confirmed appointments stored for one doctor/date/time slot. -/
def confirmedCount (db : List Appointment) (docId : Nat) (date time : String) : Nat :=
  (db.filter fun a =>
    a.doctor_id == docId && a.date == date && a.time == time && a.status == "confirmed").length

/-- ASCII model of a regex word character (letter, digit or underscore). -/
def isWordChar (c : Char) : Bool := c.isAlphanum || c = '_'

/-- Whether the first list is an initial segment of the second. -/
def leadsWith : List Char → List Char → Bool
  | [], _ => true
  | _ :: _, [] => false
  | p :: ps, c :: cs => p == c && leadsWith ps cs

/-- Whether pat occurs as a contiguous segment anywhere in the list. -/
def occursIn (pat : List Char) : List Char → Bool
  | [] => leadsWith pat []
  | c :: cs => leadsWith pat (c :: cs) || occursIn pat cs

/-- Word boundary between the preceding character (none at the start of
the string) and a digit. -/
def boundaryBefore : Option Char → Bool
  | none => true
  | some c => !isWordChar c

/-- Word boundary between a digit and the following characters (true at
the end of the string). -/
def boundaryAfter : List Char → Bool
  | [] => true
  | c :: _ => !isWordChar c

/-- Whether the list starts with a match of the year pattern
(19|20)\d{2} with the trailing word boundary, given the character just
before (for the leading word boundary); returns the matched four digits. -/
def yearAt (prev : Option Char) : List Char → Option (List Char)
  | c1 :: c2 :: c3 :: c4 :: rest =>
    if boundaryBefore prev &&
        ((c1 == '1' && c2 == '9') || (c1 == '2' && c2 == '0')) &&
        c3.isDigit && c4.isDigit && boundaryAfter rest then
      some [c1, c2, c3, c4]
    else none
  | _ => none

/-- Scan for the leftmost year match, carrying the previous character. -/
def findFirstYearAux (prev : Option Char) : List Char → Option (List Char)
  | [] => none
  | c :: cs =>
    match yearAt prev (c :: cs) with
    | some y => some y
    | none => findFirstYearAux (some c) cs

/-- re.search(r"\b(19|20)\d{2}\b", date): the first four-digit year found
in the string (medical_tools.py lines 28 and 86). -/
def findFirstYear (s : List Char) : Option (List Char) := findFirstYearAux none s

/-- Scanning core of Python str.replace, structurally recursive on a fuel
bound: at each position, a match of pat is replaced by repl and the
matched characters skipped, otherwise one character is kept. Any fuel at
least the length of the remaining input yields the fixed point. -/
def replaceAllFuel (pat repl : List Char) : Nat → List Char → List Char
  | _, [] => []
  | 0, s => s
  | fuel + 1, c :: cs =>
    if pat ≠ [] ∧ leadsWith pat (c :: cs) = true then
      repl ++ replaceAllFuel pat repl fuel ((c :: cs).drop pat.length)
    else
      c :: replaceAllFuel pat repl fuel cs

/-- Python str.replace: replace every non-overlapping occurrence of pat,
scanning left to right (no-op for an empty pattern, which the year fix
never produces). -/
def replaceAll (pat repl : List Char) (s : List Char) : List Char :=
  replaceAllFuel pat repl s.length s

/-- The FORCE-FIX year normalization shared by check_availability
(medical_tools.py lines 24-33) and book_appointment (lines 82-91): find
the first four-digit year 19xx/20xx in the date; if it differs from the
current year, replace every occurrence of that year string with the
current year; otherwise leave the date unchanged. -/
def fix_date_year (currentYear : List Char) (date : List Char) : List Char :=
  match findFirstYear date with
  | some y => if y ≠ currentYear then replaceAll y currentYear date else date
  | none => date

/-- Python str.split(sep): split at every separator, keeping empty parts
(always returns at least one part). -/
def splitOnChar (sep : Char) : List Char → List (List Char)
  | [] => [[]]
  | c :: cs =>
    let r := splitOnChar sep cs
    if c == sep then [] :: r
    else
      match r with
      | [] => [[c]]
      | p :: ps => (c :: p) :: ps

/-- Numeric value of a digit string. -/
def digitsToNat (s : List Char) : Nat := s.foldl (fun n c => n * 10 + (c.toNat - 48)) 0

/-- Gregorian leap year rule. -/
def isLeapYear (y : Nat) : Bool := y % 4 == 0 && (y % 100 != 0 || y % 400 == 0)

/-- Days in a month. -/
def daysInMonth (y m : Nat) : Nat :=
  if m == 2 then (if isLeapYear y then 29 else 28)
  else if m == 4 || m == 6 || m == 9 || m == 11 then 30
  else 31

/-- datetime.strptime(date, "%Y-%m-%d") succeeding (medical_tools.py
line 96): exactly three dash-separated digit groups, a four-digit year
(at least 1), a one- or two-digit month 1..12, and a one- or two-digit
day valid for that month. -/
def parsesAsYmd (s : List Char) : Bool :=
  match splitOnChar '-' s with
  | [ys, ms, ds] =>
    ys.length == 4 && ys.all Char.isDigit &&
    (ms.length == 1 || ms.length == 2) && ms.all Char.isDigit &&
    (ds.length == 1 || ds.length == 2) && ds.all Char.isDigit &&
    (let y := digitsToNat ys
     let m := digitsToNat ms
     let d := digitsToNat ds
     decide (1 ≤ y) && decide (1 ≤ m) && decide (m ≤ 12) &&
       decide (1 ≤ d) && decide (d ≤ daysInMonth y m))
  | _ => false

/-- The full date normalization of book_appointment (medical_tools.py
lines 82-117): the year fix; then, if the date does not parse as
YYYY-MM-DD and is at most five characters, the current year is put in
front with a dash; finally, if the (possibly fixed) date splits on
dashes into exactly two parts, the current year is put in front with a
dash. -/
def normalize_book_date (currentYear : List Char) (date : List Char) : List Char :=
  let d1 := fix_date_year currentYear date
  let d2 :=
    if parsesAsYmd d1 then d1
    else if d1.length ≤ 5 then currentYear ++ '-' :: d1
    else d1
  if (splitOnChar '-' d2).length == 2 then currentYear ++ '-' :: d2 else d2

/-- A character of the regex class [\w\.-]. -/
def isWordDotDash (c : Char) : Bool := isWordChar c || c == '.' || c == '-'

/-- Core match of the anchored pattern [\w\.-]+@[\w\.-]+\.\w+ against a
whole string: exactly one at-sign; a nonempty local part of class
characters; a domain of class characters ending in a dot followed by a
nonempty run of word characters, with something before that dot. -/
def emailCoreMatch (s : List Char) : Bool :=
  match splitOnChar '@' s with
  | [loc, dom] =>
    !loc.isEmpty && loc.all isWordDotDash && dom.all isWordDotDash &&
      (let r := dom.reverse
       let tld := r.takeWhile isWordChar
       match r.drop tld.length with
       | '.' :: rest => !tld.isEmpty && !rest.isEmpty
       | _ => false)
  | _ => false

/-- is_valid_email (medical_tools.py lines 638-640):
re.match(r"^[\w\.-]+@[\w\.-]+\.\w+$", email) is not None. The dollar
anchor in Python also matches just before one trailing newline. -/
def is_valid_email (email : String) : Bool :=
  emailCoreMatch email.data ||
    (match email.data.reverse with
     | '\n' :: t => emailCoreMatch t.reverse
     | _ => false)

/-- The invalid-email error message returned by verify_user and
register_user (medical_tools.py lines 646 and 661). -/
def invalidEmailMsg : String :=
  "Error: Invalid email format. Please provide a valid email address (e.g., user@example.com)."

/-- verify_user (medical_tools.py lines 642-655): reject a malformed
email before touching the store; otherwise look the patient up by email. -/
def verify_user (patients : List Patient) (email : String) : String :=
  if !is_valid_email email then invalidEmailMsg
  else
    match patients.find? (fun p => p.email == email) with
    | some u =>
        "User found: " ++ u.name ++ " (ID: " ++ toString u.id ++ ", Age: " ++ toString u.age ++
          ", Gender: " ++ u.gender ++ ")"
    | none => "User not found."

/-- register_user (medical_tools.py lines 657-676): reject a malformed
email before touching the store; return an already-exists error without
inserting when a patient with the email exists; otherwise insert the new
patient. Returns the store after the call and the reply string. -/
def register_user (patients : List Patient) (nextId : Nat) (name : String) (email : String)
    (age : Nat) (gender : String) : List Patient × String :=
  if !is_valid_email email then (patients, invalidEmailMsg)
  else
    match patients.find? (fun p => p.email == email) with
    | some _ => (patients, "Error: User with email " ++ email ++ " already exists.")
    | none =>
        let u : Patient := { id := nextId, name := name, email := email, age := age,
                             gender := gender }
        (patients ++ [u], "User registered successfully: " ++ name ++ " (ID: " ++
          toString nextId ++ ")")

/-- Every handoff tool bound to any agent targets one of the four swarm
agent names. -/
theorem handoff_targets_closed (a b : String) (h : b ∈ handoffTargets a) :
    b ∈ swarmAgentNames := by
  unfold handoffTargets at h
  split_ifs at h <;>
    simp only [swarmAgentNames, List.mem_cons, List.not_mem_nil, or_false] at h ⊢ <;>
    tauto

/-- Claim C1: for every conversation session the active handler starts as
Triage (the swarm's default_active_agent), and after any completed turn —
i.e. after any chain of handoff transitions — it is one of the four
enumerated names Triage, Appointment, Clinical, Billing: never none and
never any other value. -/
theorem C1_active_handler_enum :
    defaultActiveAgent = "Triage" ∧ ReachableActive (some defaultActiveAgent) ∧
      ∀ s : Option String, ReachableActive s → ∃ a, s = some a ∧ a ∈ swarmAgentNames := by
  refine ⟨rfl, ReachableActive.init, ?_⟩
  intro s h
  induction h with
  | init => exact ⟨defaultActiveAgent, rfl, by decide⟩
  | step _ hstep _ =>
      cases hstep with
      | handoff a b hb => exact ⟨b, rfl, handoff_targets_closed a b hb⟩

/-- Witness for C1: the active-handler value reached by the handoff chain
Triage to Billing is an enumerated name. -/
theorem C1_active_handler_enum_witness :
    ∃ a, (some "Billing" : Option String) = some a ∧ a ∈ swarmAgentNames :=
  C1_active_handler_enum.2.2 (some "Billing")
    (ReachableActive.step ReachableActive.init
      (HandoffStep.handoff "Triage" "Billing" (by decide)))

/-- Claim C6: the router never truncates, reorders, or deduplicates the
session's message history: the history after a turn is exactly the prior
history with the incoming user message and the turn's replies appended in
conversation order, so the prior history is recovered unchanged as the
initial segment; and the state stored by the checkpointer under the
turn's thread id is updated in exactly this way. -/
theorem C6_messages_append_only :
    ∀ (history : List Msg) (userMsg : Msg) (replies : List Msg),
      runTurn history userMsg replies = history ++ userMsg :: replies
      ∧ (runTurn history userMsg replies).take history.length = history
      ∧ ∀ (cp : Checkpointer) (reqThreadId : Option String) (freshId newActive : String),
          (lookupSession ((chatTurn cp reqThreadId freshId userMsg replies newActive).fst)
              (resolveThreadId reqThreadId freshId)).messages =
            (lookupSession cp (resolveThreadId reqThreadId freshId)).messages ++
              userMsg :: replies := by
  intro history u r
  refine ⟨rfl, ?_, ?_⟩
  · simp [runTurn, add_messages, List.take_left]
  · intro cp reqTid fresh act
    simp [chatTurn, lookupSession, updateSession, runTurn, add_messages]

/-- The chat endpoint's event translation never produces an error event:
error frames arise only from a raised exception. -/
theorem translateEvent_no_error (ev : RawEvent) (c : String) :
    translateEvent ev ≠ some (OutEvent.errorEvent c) := by
  cases ev <;> simp only [translateEvent] <;> first | (split <;> simp) | simp

/-- Claim C2: a POST /api/chat request with no thread_id gets a freshly
generated id, which is returned as the first emitted event; the turn runs
against the empty initial session for that fresh id (a new session, with
no error event emitted by translation); and a request supplying a
previously returned (hence non-empty) id operates on the stored state
under that same id. -/
theorem C2_thread_id_resolution :
    ∀ (cp : Checkpointer) (freshId : String) (userMsg : Msg) (replies : List Msg)
      (newActive : String) (events : List RawEvent),
      cp freshId = none →
      (resolveThreadId none freshId = freshId
       ∧ (event_generator (resolveThreadId none freshId) events none).head? =
           some (OutEvent.threadIdEvent freshId)
       ∧ (∀ c, OutEvent.errorEvent c ∉ event_generator (resolveThreadId none freshId) events none)
       ∧ lookupSession cp (resolveThreadId none freshId) = initialSession
       ∧ (chatTurn cp none freshId userMsg replies newActive).snd = freshId
       ∧ (chatTurn cp none freshId userMsg replies newActive).fst freshId =
           some { messages := runTurn initialSession.messages userMsg replies,
                  activeAgent := newActive }
       ∧ ∀ tid, tid ≠ "" →
           resolveThreadId (some tid) freshId = tid
           ∧ (chatTurn cp (some tid) freshId userMsg replies newActive).fst tid =
               some { messages := runTurn (lookupSession cp tid).messages userMsg replies,
                      activeAgent := newActive }) := by
  intro cp fresh u r act evs hfresh
  refine ⟨rfl, rfl, ?_, ?_, rfl, ?_, ?_⟩
  · intro c hc
    simp only [event_generator, resolveThreadId, List.append_nil, List.mem_cons,
      List.mem_filterMap] at hc
    rcases hc with h | ⟨ev, _, hev⟩
    · exact OutEvent.noConfusion h
    · exact translateEvent_no_error ev c hev
  · simp [lookupSession, resolveThreadId, hfresh]
  · simp [chatTurn, resolveThreadId, updateSession, lookupSession, hfresh]
  · intro tid htid
    constructor
    · simp [resolveThreadId, htid]
    · simp [chatTurn, resolveThreadId, htid, updateSession]

/-- Witness for C2: with an empty checkpointer and fresh id f123, the turn
is keyed by f123, and a later request supplying thread id abc resumes the
session keyed abc. -/
theorem C2_thread_id_resolution_witness :
    (chatTurn (fun _ => none) none "f123" { role := "user", content := "hi" } [] "Triage").snd
        = "f123"
    ∧ resolveThreadId (some "abc") "f123" = "abc" := by
  have h := C2_thread_id_resolution (fun _ => none) "f123"
    { role := "user", content := "hi" } [] "Triage" [] rfl
  exact ⟨h.2.2.2.2.1, (h.2.2.2.2.2.2 "abc" (by decide)).1⟩

/-- Claim C3: within a turn, the handler-switched event is emitted at the
exact stream position of the on_chain_start event that commits the state
transition — not after the turn completes — so it precedes every token
translated from the rest of the stream (in particular all output
attributed to the newly active handler). -/
theorem C3_handler_switch_synchronous :
    ∀ (threadId a : String) (pre suf : List RawEvent),
      a ∈ monitoredAgents →
      event_generator threadId (pre ++ RawEvent.chainStart a :: suf) none =
        (OutEvent.threadIdEvent threadId :: pre.filterMap translateEvent) ++
          OutEvent.agentEvent a :: suf.filterMap translateEvent := by
  intro tid a pre suf ha
  simp [event_generator, List.filterMap_append, List.filterMap_cons, translateEvent, ha]

/-- Witness for C3: the switch to Appointment is emitted between the
translation of the preceding events and the translation of the following
token stream. -/
theorem C3_handler_switch_synchronous_witness :
    event_generator "t1" ([RawEvent.toolStart "verify_user" "x"] ++
        RawEvent.chainStart "Appointment" :: [RawEvent.chatModelStream "Hello"]) none =
      (OutEvent.threadIdEvent "t1" ::
          List.filterMap translateEvent [RawEvent.toolStart "verify_user" "x"]) ++
        OutEvent.agentEvent "Appointment" ::
          List.filterMap translateEvent [RawEvent.chatModelStream "Hello"] :=
  C3_handler_switch_synchronous "t1" "Appointment" _ _ (by decide)

/-- Counterexample for C4: a turn in which the graph run raises the
recursion-cap exception after entering Triage produces only the thread_id
event, the agent event, and an error event carrying the raw exception
text. No token event — hence no reply at all, generic or otherwise — is
emitted: the claim that the turn "terminates with a generic unable-to-
complete reply" is false of this code path, which instead surfaces a raw
error frame. -/
theorem C4_cap_counterexample :
    event_generator "t1" [RawEvent.chainStart "Triage"]
        (some "Recursion limit of 25 reached without hitting a stop condition.") =
      [OutEvent.threadIdEvent "t1", OutEvent.agentEvent "Triage",
       OutEvent.errorEvent "Recursion limit of 25 reached without hitting a stop condition."]
    ∧ (event_generator "t1" [RawEvent.chainStart "Triage"]
        (some "Recursion limit of 25 reached without hitting a stop condition.")).all
        (fun e => match e with
          | OutEvent.token _ => false
          | _ => true) = true := by
  exact ⟨by decide, by decide⟩

/-- Claim C4 (amended): when the graph run raises (as langgraph does once
the recursion/iteration cap is exceeded), the turn does not loop forever
or crash the stream: the endpoint catches the exception and the emitted
stream is finite, starts with the thread_id event, and ends with an error
event carrying the exception text (not a generic "unable to complete"
reply); and the same non-empty thread id still resolves to the same
session key on the next request, so the session remains usable. -/
theorem C4_cap_error_frame :
    ∀ (threadId errMsg freshId : String) (events : List RawEvent),
      threadId ≠ "" →
      ((event_generator threadId events (some errMsg)).getLast? =
          some (OutEvent.errorEvent errMsg)
       ∧ (event_generator threadId events (some errMsg)).head? =
           some (OutEvent.threadIdEvent threadId)
       ∧ resolveThreadId (some threadId) freshId = threadId) := by
  intro tid err fresh evs htid
  refine ⟨?_, rfl, by simp [resolveThreadId, htid]⟩
  show (OutEvent.threadIdEvent tid ::
      (evs.filterMap translateEvent ++ [OutEvent.errorEvent err])).getLast? = _
  rw [show OutEvent.threadIdEvent tid ::
      (evs.filterMap translateEvent ++ [OutEvent.errorEvent err]) =
      (OutEvent.threadIdEvent tid :: evs.filterMap translateEvent) ++ [OutEvent.errorEvent err]
    from rfl]
  exact List.getLast?_concat _

/-- Witness for C4 (amended): a concrete failed turn ends in its error
frame. -/
theorem C4_cap_error_frame_witness :
    (event_generator "t1" [] (some "boom")).getLast? = some (OutEvent.errorEvent "boom") :=
  (C4_cap_error_frame "t1" "boom" "f" [] (by decide)).1

/-- Claim C5 (code bug): book_appointment's check-then-insert is not
atomic. Two simultaneous calls for the identical doctor/date/time slot,
interleaved so that both SELECT phases run before either INSERT commits
(schedule first-check, second-check, first-insert, second-insert), both
return a confirmed reply and leave two confirmed appointments for the
same slot in the table — the schema has no unique constraint and the
tool takes no lock. Under the serialized schedule the intended behaviour
does hold: one confirmation and one "slot already booked" error. -/
theorem C5_double_booking_race :
    (let r1 : BookRequest :=
        { doctor_id := 1, date := "2025-12-05", time := "10:00", patient_id := 1 }
     let r2 : BookRequest :=
        { doctor_id := 1, date := "2025-12-05", time := "10:00", patient_id := 2 }
     let s1 : BookSession := { req := r1, apptId := 1, seen := none, outcome := none }
     let s2 : BookSession := { req := r2, apptId := 2, seen := none, outcome := none }
     let bad := runSchedule [true, false, true, false] [] s1 s2
     let seq := runSchedule [true, true, false, false] [] s1 s2
     (bad.snd.fst.outcome = some true ∧ bad.snd.snd.outcome = some true
       ∧ confirmedCount bad.fst 1 "2025-12-05" "10:00" = 2)
     ∧ (seq.snd.fst.outcome = some true ∧ seq.snd.snd.outcome = some false
       ∧ confirmedCount seq.fst 1 "2025-12-05" "10:00" = 1)) := by
  decide

/-- Counterexample for C7: the handoff tool sets permit Appointment to
hand off to Triage (to_triage is in appointment_tools) and Clinical to
hand off to Triage (to_triage is in clinical_tools), but the GET /graph
endpoint's hardcoded edge list contains neither edge — so "edge listed
iff the source's tool set contains the handoff tool targeting the
destination" is false. -/
theorem C7_missing_edges_counterexample :
    ("Triage" ∈ handoffTargets "Appointment"
     ∧ graphEdges.all (fun e => !(e.source == "Appointment" && e.target == "Triage")) = true)
    ∧ ("Triage" ∈ handoffTargets "Clinical"
     ∧ graphEdges.all (fun e => !(e.source == "Clinical" && e.target == "Triage")) = true) := by
  decide

/-- Claim C7 (amended): GET /graph returns exactly the four handler names
(as node ids, a permutation of the swarm's agent list) plus the fixed
hardcoded edge list; every listed edge is permitted by the handoff tool
sets, but the listed edges are a proper subset of the permitted pairs:
exactly the two pairs Appointment to Triage and Clinical to Triage are
permitted by the tool sets yet absent from the endpoint's list. -/
theorem C7_graph_endpoint_edges :
    List.Perm (graphNodes.map GraphNode.id) swarmAgentNames
    ∧ get_graph = (graphNodes, graphEdges, "Triage")
    ∧ (∀ e ∈ graphEdges, e.target ∈ handoffTargets e.source)
    ∧ (∀ a ∈ swarmAgentNames, ∀ b ∈ handoffTargets a,
        (a, b) = ("Appointment", "Triage") ∨ (a, b) = ("Clinical", "Triage")
        ∨ ∃ e ∈ graphEdges, e.source = a ∧ e.target = b) := by
  refine ⟨by decide, rfl, by decide, by decide⟩

/-- Witness for C7 (amended): the endpoint's first edge is a permitted
handoff, and the Triage-to-Billing handoff is represented by an edge. -/
theorem C7_graph_endpoint_edges_witness :
    (({ source := "Triage", target := "Clinical", label := "Medical symptoms" } : GraphEdge).target
        ∈ handoffTargets "Triage")
    ∧ ((("Triage", "Billing") : String × String) = ("Appointment", "Triage")
        ∨ (("Triage", "Billing") : String × String) = ("Clinical", "Triage")
        ∨ ∃ e ∈ graphEdges, e.source = "Triage" ∧ e.target = "Billing") :=
  ⟨C7_graph_endpoint_edges.2.2.1 _ (by decide),
   C7_graph_endpoint_edges.2.2.2 "Triage" (by decide) "Billing" (by decide)⟩

/-- Claim C8: for every appointment id, GET /api/tickets/{id} and
GET /api/calendar/{id} return 404 exactly when no appointment row has
that id; when the row exists and the respective generator produces bytes,
the ticket endpoint streams them as application/pdf and the calendar
endpoint as text/calendar; and when the row exists neither endpoint
returns 404 (a generator failure yields 500, not 404). -/
theorem C8_ticket_calendar_endpoints :
    ∀ (db : Database) (appointment_id : Nat)
      (genTicket genIcs : TicketDetails → Option (List Nat)),
      ((db.appointments.find? (fun a => a.id == appointment_id)) = none →
        get_ticket db genTicket appointment_id = HttpResponse.httpError 404 "Appointment not found"
        ∧ get_calendar db genIcs appointment_id =
            HttpResponse.httpError 404 "Appointment not found")
      ∧ ∀ appt, (db.appointments.find? (fun a => a.id == appointment_id)) = some appt →
          (∀ bytes, genTicket (ticketDetails db appt) = some bytes →
              get_ticket db genTicket appointment_id = HttpResponse.file "application/pdf" bytes)
          ∧ (∀ bytes, genIcs (ticketDetails db appt) = some bytes →
              get_calendar db genIcs appointment_id = HttpResponse.file "text/calendar" bytes)
          ∧ (∀ d, get_ticket db genTicket appointment_id ≠ HttpResponse.httpError 404 d)
          ∧ (∀ d, get_calendar db genIcs appointment_id ≠ HttpResponse.httpError 404 d) := by
  intro db i gt gi
  constructor
  · intro h
    constructor <;> simp [get_ticket, get_calendar, h]
  · intro appt h
    refine ⟨?_, ?_, ?_, ?_⟩
    · intro bytes hb
      simp [get_ticket, h, hb]
    · intro bytes hb
      simp [get_calendar, h, hb]
    · intro d
      simp only [get_ticket, h]
      cases gt (ticketDetails db appt) <;> simp
    · intro d
      simp only [get_calendar, h]
      cases gi (ticketDetails db appt) <;> simp

/-- Witness for C8: a store with a single appointment row with id 7
streams a PDF for id 7, and returns 404 for the absent id 8. -/
theorem C8_ticket_calendar_endpoints_witness :
    get_ticket
        { doctors := [{ id := 1, name := "Dr. A", specialty := "GP", clinic_name := "C",
                        address := "Addr", city := "City" }],
          patients := [{ id := 1, name := "Ann", email := "ann@example.com", age := 30,
                         gender := "F" }],
          appointments := [{ id := 7, doctor_id := 1, patient_id := 1, date := "2026-12-05",
                             time := "10:00", status := "confirmed" }] }
        (fun _ => some [37]) 7 = HttpResponse.file "application/pdf" [37]
    ∧ get_calendar
        { doctors := [{ id := 1, name := "Dr. A", specialty := "GP", clinic_name := "C",
                        address := "Addr", city := "City" }],
          patients := [{ id := 1, name := "Ann", email := "ann@example.com", age := 30,
                         gender := "F" }],
          appointments := [{ id := 7, doctor_id := 1, patient_id := 1, date := "2026-12-05",
                             time := "10:00", status := "confirmed" }] }
        (fun _ => some [42]) 8 = HttpResponse.httpError 404 "Appointment not found" := by
  constructor
  · exact (((C8_ticket_calendar_endpoints _ 7 (fun _ => some [37]) (fun _ => some [37])).2
        { id := 7, doctor_id := 1, patient_id := 1, date := "2026-12-05",
          time := "10:00", status := "confirmed" } (by decide)).1 [37] rfl)
  · exact ((C8_ticket_calendar_endpoints _ 8 (fun _ => some [42]) (fun _ => some [42])).1
        (by decide)).2

/-- A list is an initial segment of itself followed by anything. -/
theorem leadsWith_append_self (p t : List Char) : leadsWith p (p ++ t) = true := by
  induction p with
  | nil => rfl
  | cons a as ih => simp [leadsWith, ih]

/-- The replacement scan leaves a string without any occurrence of the
pattern unchanged, for any sufficient fuel. -/
theorem replaceAllFuel_no_occur (pat repl : List Char) :
    ∀ (fuel : Nat) (s : List Char), s.length ≤ fuel → occursIn pat s = false →
      replaceAllFuel pat repl fuel s = s := by
  intro fuel
  induction fuel with
  | zero =>
    intro s _ _
    cases s <;> rfl
  | succ n ih =>
    intro s hlen hocc
    cases s with
    | nil => rfl
    | cons c cs =>
      simp only [occursIn, Bool.or_eq_false_iff] at hocc
      rw [replaceAllFuel, if_neg]
      · rw [ih cs (by simpa using Nat.le_of_succ_le_succ hlen) hocc.2]
      · intro hcond
        rw [hocc.1] at hcond
        exact Bool.false_ne_true hcond.2

/-- Python str.replace is the identity on a string in which the pattern
does not occur. -/
theorem replaceAll_no_occur (pat repl s : List Char) (hocc : occursIn pat s = false) :
    replaceAll pat repl s = s :=
  replaceAllFuel_no_occur pat repl s.length s le_rfl hocc

/-- Python str.replace on a string that starts with the (non-empty)
pattern and contains no further occurrence replaces exactly that leading
occurrence. -/
theorem replaceAll_head_match (pat repl rest : List Char) (hp : pat ≠ [])
    (hocc : occursIn pat rest = false) :
    replaceAll pat repl (pat ++ rest) = repl ++ rest := by
  cases pat with
  | nil => exact absurd rfl hp
  | cons a as =>
    show replaceAllFuel (a :: as) repl ((a :: as ++ rest).length) (a :: (as ++ rest)) =
      repl ++ rest
    have hlen : (a :: as ++ rest).length = (as ++ rest).length + 1 := by simp
    rw [hlen, replaceAllFuel,
      if_pos ⟨List.cons_ne_nil a as, leadsWith_append_self (a :: as) rest⟩]
    have hdrop : (a :: (as ++ rest)).drop (a :: as).length = rest := by
      show (as ++ rest).drop as.length = rest
      exact List.drop_left as rest
    rw [hdrop,
      replaceAllFuel_no_occur (a :: as) repl ((as ++ rest).length) rest
        (by simp [Nat.le_add_left]) hocc]

/-- Splitting never produces an empty list of parts. -/
theorem splitOnChar_ne_nil (sep : Char) : ∀ s : List Char, splitOnChar sep s ≠ [] := by
  intro s
  induction s with
  | nil => simp [splitOnChar]
  | cons c cs ih =>
    simp only [splitOnChar]
    by_cases hb : (c == sep) = true
    · simp [hb]
    · simp only [Bool.not_eq_true] at hb
      simp only [hb, Bool.false_eq_true, if_false]
      cases hr : splitOnChar sep cs <;> simp

/-- The number of parts produced by splitting is the separator count plus
one (as for Python str.split). -/
theorem splitOnChar_length (sep : Char) :
    ∀ s : List Char, (splitOnChar sep s).length = s.count sep + 1 := by
  intro s
  induction s with
  | nil => rfl
  | cons c cs ih =>
    by_cases hc : c = sep
    · subst hc
      simp [splitOnChar, List.count_cons, ih]
    · have hb : (c == sep) = false := by simp [hc]
      cases hr : splitOnChar sep cs with
      | nil => exact absurd hr (splitOnChar_ne_nil sep cs)
      | cons p ps =>
        rw [hr] at ih
        simp only [splitOnChar, hb, Bool.false_eq_true, if_false, hr]
        simp only [List.length_cons] at ih ⊢
        simp [List.count_cons, hc, ih]

/-- A date that splits on dashes into exactly two parts cannot parse as
YYYY-MM-DD (which needs three parts). -/
theorem parsesAsYmd_of_two_parts (s : List Char) (h : (splitOnChar '-' s).length = 2) :
    parsesAsYmd s = false := by
  unfold parsesAsYmd
  rcases hr : splitOnChar '-' s with _ | ⟨a, _ | ⟨b, _ | ⟨c, t⟩⟩⟩ <;>
    rw [hr] at h <;> simp_all

/-- Counterexample for C9: with current year 2026, the date "2026-2024"
contains the four-digit year 2024, different from the current year, yet
the year fix leaves the date unchanged (the first year found, 2026,
equals the current year, and the code inspects only the first match), so
check_availability queries a date still containing 2024, and
book_appointment goes on to store "2026-2026-2024" — the foreign year is
not replaced. -/
theorem C9_first_match_counterexample :
    findFirstYear (String.toList "2026-2024") = some (String.toList "2026")
    ∧ fix_date_year (String.toList "2026") (String.toList "2026-2024") =
        String.toList "2026-2024"
    ∧ occursIn (String.toList "2024") (String.toList "2026-2024") = true
    ∧ normalize_book_date (String.toList "2026") (String.toList "2026-2024") =
        String.toList "2026-2026-2024"
    ∧ occursIn (String.toList "2024")
        (normalize_book_date (String.toList "2026") (String.toList "2026-2024")) = true
    ∧ String.toList "2024" ≠ String.toList "2026" := by
  decide

/-- Claim C9 (amended): the year fix in check_availability and
book_appointment inspects only the first word-delimited four-digit year
19xx/20xx in the date: if that first year differs from the current year,
every substring occurrence of it is replaced by the current year (so in
the common case where the date starts with that year and contains no
further occurrence, the result is exactly the current year followed by
the rest); if the first year found equals the current year, or no year is
found, the date is left unchanged — a different year appearing later in
the string is not replaced. Independently, book_appointment puts the
current year (with a dash) in front of any date that, after the year fix,
consists of exactly two dash-separated parts. -/
theorem C9_year_normalization :
    ∀ (cur d y rest : List Char),
      (findFirstYear d = some y → y ≠ cur → fix_date_year cur d = replaceAll y cur d)
      ∧ (findFirstYear d = some y → y = cur → fix_date_year cur d = d)
      ∧ (findFirstYear d = none → fix_date_year cur d = d)
      ∧ (y ≠ [] → occursIn y rest = false → replaceAll y cur (y ++ rest) = cur ++ rest)
      ∧ ((splitOnChar '-' (fix_date_year cur d)).length = 2 → cur.count '-' = 0 →
          normalize_book_date cur d = cur ++ '-' :: fix_date_year cur d) := by
  intro cur d y rest
  refine ⟨?_, ?_, ?_, ?_, ?_⟩
  · intro h1 h2
    simp [fix_date_year, h1, h2]
  · intro h1 h2
    simp [fix_date_year, h1, h2]
  · intro h1
    simp [fix_date_year, h1]
  · exact fun hp hocc => replaceAll_head_match y cur rest hp hocc
  · intro h2 hcur
    have hc1 : (fix_date_year cur d).count '-' = 1 := by
      have hl := splitOnChar_length '-' (fix_date_year cur d)
      omega
    have hcat : (splitOnChar '-' (cur ++ '-' :: fix_date_year cur d)).length = 3 := by
      rw [splitOnChar_length]
      simp [List.count_append, List.count_cons, hcur, hc1]
    have hY : parsesAsYmd (fix_date_year cur d) = false :=
      parsesAsYmd_of_two_parts _ h2
    simp only [normalize_book_date, hY, Bool.false_eq_true, if_false]
    by_cases hlen : (fix_date_year cur d).length ≤ 5
    · simp only [if_pos hlen]
      simp [hcat]
    · simp only [if_neg hlen]
      simp [h2]

/-- Witness for C9 (amended): with current year 2026, the date
"2024-12-05" has first year 2024, which is replaced throughout, giving
"2026-12-05"; and the two-part date "12-05" is stored with the current
year in front. -/
theorem C9_year_normalization_witness :
    (fix_date_year (String.toList "2026") (String.toList "2024-12-05") =
        replaceAll (String.toList "2024") (String.toList "2026") (String.toList "2024-12-05"))
    ∧ (replaceAll (String.toList "2024") (String.toList "2026")
        (String.toList "2024" ++ String.toList "-12-05") =
        String.toList "2026" ++ String.toList "-12-05")
    ∧ (normalize_book_date (String.toList "2026") (String.toList "12-05") =
        String.toList "2026" ++ '-' :: fix_date_year (String.toList "2026")
          (String.toList "12-05")) := by
  refine ⟨?_, ?_, ?_⟩
  · exact (C9_year_normalization (String.toList "2026") (String.toList "2024-12-05")
      (String.toList "2024") []).1 (by decide) (by decide)
  · exact (C9_year_normalization (String.toList "2026") (String.toList "2024-12-05")
      (String.toList "2024") (String.toList "-12-05")).2.2.2.1 (by decide) (by decide)
  · exact (C9_year_normalization (String.toList "2026") (String.toList "12-05")
      (String.toList "2024") []).2.2.2.2 (by decide) (by decide)

/-- Claim C10: a string rejected by the e-mail pattern makes verify_user
and register_user return the invalid-format error without reading the
patient store (the result is the same for any store contents) and without
modifying it; and register_user with a well-formed e-mail that an
existing patient already has returns the already-exists error and inserts
nothing, so the number of patients holding that e-mail is unchanged —
this path never creates a second patient with the same e-mail. -/
theorem C10_email_gate :
    ∀ (patients other : List Patient) (nextId : Nat) (name email gender : String) (age : Nat),
      (is_valid_email email = false →
        (verify_user patients email = invalidEmailMsg
         ∧ verify_user patients email = verify_user other email
         ∧ register_user patients nextId name email age gender = (patients, invalidEmailMsg)))
      ∧ (is_valid_email email = true →
          ∀ p, patients.find? (fun q => q.email == email) = some p →
            register_user patients nextId name email age gender =
              (patients, "Error: User with email " ++ email ++ " already exists.")
            ∧ ((register_user patients nextId name email age gender).fst.filter
                (fun q => q.email == email)).length =
              (patients.filter (fun q => q.email == email)).length) := by
  intro ps other nid nm em gd ag
  constructor
  · intro hv
    refine ⟨?_, ?_, ?_⟩ <;> simp [verify_user, register_user, hv]
  · intro hv p hp
    constructor <;> simp [register_user, hv, hp]

/-- Witness for C10: "not-an-email" is rejected without touching the
store, and re-registering Ann's e-mail inserts nothing. -/
theorem C10_email_gate_witness :
    (let ann : Patient :=
      { id := 1, name := "Ann", email := "ann@example.com", age := 30, gender := "F" }
     verify_user [ann] "not an email" = invalidEmailMsg
     ∧ register_user [ann] 2 "Bob" "ann@example.com" 40 "M" =
        ([ann], "Error: User with email " ++ "ann@example.com" ++ " already exists.")) := by
  refine ⟨?_, ?_⟩
  · exact ((C10_email_gate
      [{ id := 1, name := "Ann", email := "ann@example.com", age := 30, gender := "F" }]
      [] 2 "Bob" "not an email" "M" 40).1 (by decide)).1
  · exact (((C10_email_gate
      [{ id := 1, name := "Ann", email := "ann@example.com", age := 30, gender := "F" }]
      [] 2 "Bob" "ann@example.com" "M" 40).2 (by decide))
      { id := 1, name := "Ann", email := "ann@example.com", age := 30, gender := "F" }
      (by decide)).1

end MediConnect
